import Mathlib

/-!
Shallow embedding of the anthropic-tokenizer service core
(src/types.ts, src/tokenizer.ts, src/index.ts) and proofs about its
content-flattening algorithm and request validation.

JavaScript runtime values that the code inspects are modelled explicitly:
JSON values as the inductive `Json` (objects keep insertion order, as JS
objects do), JS `undefined` as `Option.none`, and JS truthiness checks on
typed values as explicit emptiness tests.
-/

namespace TokenizerModel

/-- A JSON value as produced by parsing a request body.  Object fields keep
their insertion order, matching JavaScript object semantics, so that
`JSON.stringify` is deterministic. -/
inductive Json where
  | null : Json
  | bool (b : Bool) : Json
  | num (n : Int) : Json
  | str (s : String) : Json
  | arr (elems : List Json) : Json
  | obj (fields : List (String × Json)) : Json

/-- Escaping of a single character inside a JSON string literal, as
`JSON.stringify` performs it for the common escapes. -/
def escapeJsonChar (c : Char) : String :=
  if c = '"' then "\\\""
  else if c = '\\' then "\\\\"
  else if c = '\n' then "\\n"
  else if c = '\r' then "\\r"
  else if c = '\t' then "\\t"
  else String.singleton c

/-- Escaping of a whole string for inclusion in a JSON string literal. -/
def escapeJsonString (s : String) : String :=
  String.join (s.data.map escapeJsonChar)

mutual

/-- Compact serialization of a JSON value: the model of `JSON.stringify`
(no whitespace, object fields in insertion order). -/
def Json.stringify : Json → String
  | .null => "null"
  | .bool true => "true"
  | .bool false => "false"
  | .num n => toString n
  | .str s => "\"" ++ escapeJsonString s ++ "\""
  | .arr elems => "[" ++ stringifyArray elems ++ "]"
  | .obj fields => "\x7b" ++ stringifyObject fields ++ "\x7d"

/-- Comma-separated serialization of the elements of a JSON array. -/
def stringifyArray : List Json → String
  | [] => ""
  | [j] => Json.stringify j
  | j :: rest => Json.stringify j ++ "," ++ stringifyArray rest

/-- Comma-separated serialization of the fields of a JSON object, in
insertion order. -/
def stringifyObject : List (String × Json) → String
  | [] => ""
  | [(k, j)] => "\"" ++ escapeJsonString k ++ "\":" ++ Json.stringify j
  | (k, j) :: rest =>
      "\"" ++ escapeJsonString k ++ "\":" ++ Json.stringify j ++ ","
        ++ stringifyObject rest

end

/-- `ImageSource` from src/types.ts. -/
structure ImageSource where
  sourceType : String
  media_type : Option String
  data : Option String
  url : Option String

/-- `DocumentSource` from src/types.ts (same shape as `ImageSource`). -/
structure DocumentSource where
  sourceType : String
  media_type : Option String
  data : Option String
  url : Option String

/-- `ContentBlock` from src/types.ts.  The `tool_result` content field of
type `string | ContentBlock[]` is split into two constructors.  The extra
`other` constructor models a runtime value whose `type` tag is none of the
recognized ones (the `default` branch of the switch in src/tokenizer.ts). -/
inductive ContentBlock where
  | text (text : String) : ContentBlock
  | image (source : ImageSource) : ContentBlock
  | document (source : DocumentSource) : ContentBlock
  | toolUse (id : String) (name : String) (input : List (String × Json)) :
      ContentBlock
  | toolResultStr (tool_use_id : String) (content : String) : ContentBlock
  | toolResultBlocks (tool_use_id : String) (content : List ContentBlock) :
      ContentBlock
  | other (typeTag : String) : ContentBlock

/-- Concatenation of a list of strings with no separator: the model of
`array.join("")`. -/
def concatStrings : List String → String
  | [] => ""
  | s :: rest => s ++ concatStrings rest

mutual

/-- `extractTextFromContentBlock` from src/tokenizer.ts. -/
def extractTextFromContentBlock : ContentBlock → String
  | .text t => t
  | .toolUse _ name input => name ++ Json.stringify (.obj input)
  | .toolResultStr _ content => content
  | .toolResultBlocks _ content => extractTextFromBlocks content
  | .image _ => "[image]"
  | .document _ => "[document]"
  | .other _ => ""

/-- `blocks.map(extractTextFromContentBlock).join("")`, recursed explicitly
so that the mutual recursion with `extractTextFromContentBlock` is
well-founded. -/
def extractTextFromBlocks : List ContentBlock → String
  | [] => ""
  | b :: rest => extractTextFromContentBlock b ++ extractTextFromBlocks rest

end

theorem extractTextFromBlocks_eq_concat (blocks : List ContentBlock) :
    extractTextFromBlocks blocks
      = concatStrings (blocks.map extractTextFromContentBlock) := by
  induction blocks with
  | nil => simp [extractTextFromBlocks, concatStrings]
  | cons b rest ih => simp [extractTextFromBlocks, concatStrings, ih]

/-- The role of a validated message (`"user" | "assistant"` in
src/types.ts). -/
inductive Role where
  | user : Role
  | assistant : Role

/-- The string a role renders to. -/
def Role.toStr : Role → String
  | .user => "user"
  | .assistant => "assistant"

/-- Message content of type `string | ContentBlock[]` from src/types.ts. -/
inductive MessageContent where
  | str (s : String) : MessageContent
  | blocks (blocks : List ContentBlock) : MessageContent

/-- `Message` from src/types.ts. -/
structure Message where
  role : Role
  content : MessageContent

/-- `extractTextFromMessage` from src/tokenizer.ts. -/
def extractTextFromMessage (message : Message) : String :=
  let roleHeader := message.role.toStr ++ ": "
  match message.content with
  | .str s => roleHeader ++ s
  | .blocks blocks =>
      roleHeader ++ concatStrings (blocks.map extractTextFromContentBlock)

/-- The `system` field of type `string | ContentBlock[]` from src/types.ts
(its absence is modelled by `Option` at the use site). -/
inductive SystemField where
  | str (s : String) : SystemField
  | blocks (blocks : List ContentBlock) : SystemField

/-- `extractTextFromSystem` from src/tokenizer.ts.  The JS guard
`if (!system) return ""` is falsy both for `undefined` and for the empty
string, hence the `s = ""` test; a block array (even an empty one) is
always truthy in JS and falls through to the `system: ` branch. -/
def extractTextFromSystem : Option SystemField → String
  | none => ""
  | some (.str s) => if s = "" then "" else "system: " ++ s
  | some (.blocks blocks) =>
      "system: " ++ concatStrings (blocks.map extractTextFromContentBlock)

/-- `Tool` from src/types.ts.  `input_schema` is kept as the raw parsed
JSON value: the code only ever guards on its presence and hands it to
`JSON.stringify`. -/
structure Tool where
  name : String
  description : Option String
  input_schema : Option Json

/-- The per-tool string built by the arrow function inside
`extractTextFromTools` in src/tokenizer.ts.  The JS guard
`if (tool.description)` is falsy for an absent description and for the
empty string, hence the `d = ""` test. -/
def toolText (tool : Tool) : String :=
  let base := "tool:" ++ tool.name
  let withDescription :=
    match tool.description with
    | some d => if d = "" then base else base ++ ":" ++ d
    | none => base
  match tool.input_schema with
  | some schema => withDescription ++ schema.stringify
  | none => withDescription

/-- `extractTextFromTools` from src/tokenizer.ts. -/
def extractTextFromTools : Option (List Tool) → String
  | none => ""
  | some tools =>
      if tools.length = 0 then "" else concatStrings (tools.map toolText)

/-- The `tool_choice` field from src/types.ts (never read by counting). -/
structure ToolChoice where
  choiceType : String
  name : Option String

/-- `CountTokensRequest` from src/types.ts, after validation. -/
structure CountTokensRequest where
  model : String
  messages : List Message
  system : Option SystemField
  tools : Option (List Tool)
  tool_choice : Option ToolChoice

/-- The `parts` array built by `countRequestTokens` in src/tokenizer.ts:
the system text if truthy, then the tools text if truthy, then one entry
per message unconditionally. -/
def requestParts (request : CountTokensRequest) : List String :=
  let systemText := extractTextFromSystem request.system
  let toolsText := extractTextFromTools request.tools
  (if systemText = "" then [] else [systemText])
    ++ (if toolsText = "" then [] else [toolsText])
    ++ request.messages.map extractTextFromMessage

/-- `parts.join("\n")` from `countRequestTokens` in src/tokenizer.ts. -/
def flattenRequestText (request : CountTokensRequest) : String :=
  String.intercalate "\n" (requestParts request)

/-- `countRequestTokens` from src/tokenizer.ts.  The external
`countTokens` collaborator is an explicit function parameter `ct`. -/
def countRequestTokens (ct : String → Nat) (request : CountTokensRequest) :
    Nat :=
  ct (flattenRequestText request)

/-- `countTextTokens` from src/tokenizer.ts. -/
def countTextTokens (ct : String → Nat) (text : String) : Nat :=
  ct text

/-- A message of a raw, not yet validated request body
(src/index.ts, `/v1/messages/count_tokens` handler).  `role` is `none`
when the field is absent (JS `undefined`); `content` is `none` when the
field is absent, and `some .null` when the client sent a JSON `null`. -/
structure RawMessage where
  role : Option String
  content : Option Json

/-- The raw `messages` field: absent/falsy, present but not an array, or
an actual array. -/
inductive RawMessagesField where
  | absent : RawMessagesField
  | notArray : RawMessagesField
  | arr (messages : List RawMessage) : RawMessagesField

/-- A raw request body for the structured endpoint, restricted to the
fields the validator inspects. -/
structure RawBody where
  model : Option String
  messages : RawMessagesField

/-- JS truthiness of the raw `model` field (`!body.model`): absent and
empty string are falsy. -/
def modelTruthy : Option String → Bool
  | none => false
  | some s => s != ""

/-- The role check `!msg.role || !["user", "assistant"].includes(msg.role)`
from src/index.ts, as the complement condition: the role passes exactly
when it is the string `"user"` or `"assistant"`. -/
def roleValid : Option String → Bool
  | some s => s == "user" || s == "assistant"
  | none => false

/-- How a raw role value renders inside a template literal: JS
`undefined` prints as the text `undefined`. -/
def renderRole : Option String → String
  | none => "undefined"
  | some s => s

/-- The per-message validation loop of the `/v1/messages/count_tokens`
handler in src/index.ts, returning the first error message, if any.
`i` is the loop index. -/
def validateMessagesFrom : Nat → List RawMessage → Option String
  | _, [] => none
  | i, msg :: rest =>
    if roleValid msg.role then
      match msg.content with
      | none => some ("messages." ++ toString i ++ ".content: Field required")
      | some .null =>
          some ("messages." ++ toString i ++ ".content: Field required")
      | some _ => validateMessagesFrom (i + 1) rest
    else
      some ("messages." ++ toString i ++ ".role: Invalid role \""
        ++ renderRole msg.role ++ "\"")

/-- The whole validation sequence of the `/v1/messages/count_tokens`
handler in src/index.ts: first `model`, then `messages`, then the
per-message loop; the first failing check wins. -/
def validateStructured (body : RawBody) : Option String :=
  if modelTruthy body.model then
    match body.messages with
    | .arr messages => validateMessagesFrom 0 messages
    | _ => some "messages: Field required"
  else
    some "model: Field required"

/-- The HTTP status, error type and message of a rejected request. -/
structure ErrorInfo where
  status : Nat
  errType : String
  message : String
deriving DecidableEq

/-- The error response the structured endpoint sends when validation
fails: HTTP 400 with error type `invalid_request_error`. -/
def structuredValidationError (body : RawBody) : Option ErrorInfo :=
  (validateStructured body).map
    (fun m => ⟨400, "invalid_request_error", m⟩)

/-- The raw `text` field of a `/v1/count_tokens` body: absent, present
with a non-string value, or an actual string. -/
inductive RawTextField where
  | absent : RawTextField
  | nonString : RawTextField
  | str (s : String) : RawTextField

/-- A response of the `/v1/count_tokens` endpoint. -/
inductive TextResponse where
  | ok (token_count : Nat) : TextResponse
  | err (info : ErrorInfo) : TextResponse
deriving DecidableEq

/-- The `/v1/count_tokens` handler from src/index.ts.  The guard
`if (!text || typeof text !== "string")` rejects an absent field, a
non-string field, and — because the empty string is falsy in JS — the
empty string as well. -/
def textEndpoint (ct : String → Nat) (text : RawTextField) : TextResponse :=
  match text with
  | .str s =>
      if s = "" then
        .err ⟨400, "invalid_request_error",
          "text: Field required and must be a string"⟩
      else
        .ok (countTextTokens ct s)
  | _ =>
      .err ⟨400, "invalid_request_error",
        "text: Field required and must be a string"⟩

/-- The ordered parts list as the specification words full-request
assembly: the system part if it is non-empty, then the tools part if it
is non-empty, then one part per message in original order, appended
unconditionally. -/
def specAssemblyParts (request : CountTokensRequest) : List String :=
  (if extractTextFromSystem request.system ≠ ""
    then [extractTextFromSystem request.system] else [])
    ++ (if extractTextFromTools request.tools ≠ ""
      then [extractTextFromTools request.tools] else [])
    ++ request.messages.map extractTextFromMessage

theorem if_empty_swap (s : String) :
    (if s = "" then ([] : List String) else [s])
      = if s ≠ "" then [s] else [] := by
  by_cases h : s = "" <;> simp [h]

theorem requestParts_eq_spec (request : CountTokensRequest) :
    requestParts request = specAssemblyParts request := by
  simp only [requestParts, specAssemblyParts, if_empty_swap]

/-- Claim C1: for every validated structured request, the flattened text
is the newline-join of the ordered parts list (system part if non-empty,
tools part if non-empty, then one part per message unconditionally), and
`input_tokens` is `countTokens` of that joined string. -/
theorem C1_full_request_assembly (ct : String → Nat)
    (request : CountTokensRequest) :
    flattenRequestText request
        = String.intercalate "\n" (specAssemblyParts request)
      ∧ countRequestTokens ct request
        = ct (String.intercalate "\n" (specAssemblyParts request)) := by
  refine ⟨?_, ?_⟩ <;>
    simp [flattenRequestText, countRequestTokens, requestParts_eq_spec]

/-- Claim C2: flattening of a content block returns the literal text of a
text block; tool name immediately followed by the compact JSON of the
input for a tool_use block; the content verbatim (string) or the
no-separator concatenation of the flattened sub-blocks (sequence) for a
tool_result block; `[image]` for an image; `[document]` for a document;
and the empty string for an unrecognized type tag — in particular a
tool_result holding text blocks `a` and `b` flattens to exactly `ab`. -/
theorem C2_content_block_flattening :
    (∀ t, extractTextFromContentBlock (.text t) = t)
  ∧ (∀ id name input,
      extractTextFromContentBlock (.toolUse id name input)
        = name ++ Json.stringify (.obj input))
  ∧ (∀ tid s, extractTextFromContentBlock (.toolResultStr tid s) = s)
  ∧ (∀ tid blocks,
      extractTextFromContentBlock (.toolResultBlocks tid blocks)
        = concatStrings (blocks.map extractTextFromContentBlock))
  ∧ (∀ source, extractTextFromContentBlock (.image source) = "[image]")
  ∧ (∀ source,
      extractTextFromContentBlock (.document source) = "[document]")
  ∧ (∀ tag, extractTextFromContentBlock (.other tag) = "")
  ∧ extractTextFromContentBlock
      (.toolResultBlocks "x" [.text "a", .text "b"]) = "ab" := by
  refine ⟨?_, ?_, ?_, ?_, ?_, ?_, ?_, ?_⟩ <;>
    intros <;>
    simp [extractTextFromContentBlock, extractTextFromBlocks_eq_concat,
      concatStrings]

/-- The concrete request
`{"model":"x","messages":[{"role":"user","content":"Hello"}]}`. -/
def helloRequest : CountTokensRequest :=
  ⟨"x", [⟨.user, .str "Hello"⟩], none, none, none⟩

/-- Claim C4: a message flattens to `<role>: ` followed by the content
verbatim (string content) or the no-separator concatenation of the
flattened blocks (block-list content); the concrete request with one user
message `Hello` flattens to exactly `user: Hello` and its token count is
`countTokens` of that string. -/
theorem C4_message_flattening (ct : String → Nat) :
    (∀ role s,
      extractTextFromMessage ⟨role, .str s⟩ = role.toStr ++ ": " ++ s)
  ∧ (∀ role blocks,
      extractTextFromMessage ⟨role, .blocks blocks⟩
        = role.toStr ++ ": "
          ++ concatStrings (blocks.map extractTextFromContentBlock))
  ∧ flattenRequestText helloRequest = "user: Hello"
  ∧ countRequestTokens ct helloRequest = ct "user: Hello" := by
  refine ⟨fun role s => rfl, fun role blocks => rfl, ?_, ?_⟩
  · rfl
  · rfl

/-- Claim C6: the system field contributes nothing when absent or the
empty string, `system: ` followed by the string when it is a non-empty
string, and `system: ` followed by the no-separator concatenation of the
flattened blocks when it is a sequence of content blocks. -/
theorem C6_system_contribution :
    extractTextFromSystem none = ""
  ∧ (∀ s, extractTextFromSystem (some (.str s))
      = if s = "" then "" else "system: " ++ s)
  ∧ (∀ blocks, extractTextFromSystem (some (.blocks blocks))
      = "system: "
        ++ concatStrings (blocks.map extractTextFromContentBlock)) :=
  ⟨rfl, fun _ => rfl, fun _ => rfl⟩

/-- Claim C8: flattening is deterministic — on equal inputs the flattening
pipeline produces byte-identical text, and counting the same request twice
yields the same `input_tokens` (the external tokenizer is a function `ct`,
hence deterministic by construction). -/
theorem C8_determinism (ct : String → Nat) (r1 r2 : CountTokensRequest)
    (h : r1 = r2) :
    flattenRequestText r1 = flattenRequestText r2
      ∧ countRequestTokens ct r1 = countRequestTokens ct r2 := by
  subst h
  exact ⟨rfl, rfl⟩

theorem C8_determinism_witness :
    flattenRequestText helloRequest = flattenRequestText helloRequest
      ∧ countRequestTokens String.length helloRequest
        = countRequestTokens String.length helloRequest :=
  C8_determinism String.length helloRequest helloRequest rfl

/-- Claim C9: the model field does not affect counting — two requests
that differ only in their model field flatten to byte-identical text and
receive equal `input_tokens`. -/
theorem C9_model_independence (ct : String → Nat)
    (r : CountTokensRequest) (m1 m2 : String) :
    flattenRequestText { r with model := m1 }
        = flattenRequestText { r with model := m2 }
      ∧ countRequestTokens ct { r with model := m1 }
        = countRequestTokens ct { r with model := m2 } := by
  cases r
  exact ⟨rfl, rfl⟩

/-- Claim C10: a message whose role passed validation flattens to a
string beginning with the role and `: `, which is never empty; hence the
number of newline-joined parts is one per non-empty system text, plus one
per non-empty tools text, plus one per message. -/
theorem C10_parts_count (r : CountTokensRequest) (m : Message) :
    (∃ rest, extractTextFromMessage m = m.role.toStr ++ ": " ++ rest)
  ∧ 0 < (extractTextFromMessage m).length
  ∧ (requestParts r).length
      = (if extractTextFromSystem r.system ≠ "" then 1 else 0)
        + ((if extractTextFromTools r.tools ≠ "" then 1 else 0)
          + r.messages.length) := by
  obtain ⟨role, content⟩ := m
  refine ⟨?_, ?_, ?_⟩
  · cases content with
    | str s => exact ⟨s, rfl⟩
    | blocks blocks =>
        exact ⟨concatStrings (blocks.map extractTextFromContentBlock), rfl⟩
  · have hlen : ∀ rest : String,
        0 < (role.toStr ++ ": " ++ rest).length := by
      intro rest
      cases role <;>
        (simp [Role.toStr, String.length_append]; left; decide)
    cases content with
    | str s => exact hlen s
    | blocks blocks =>
        exact hlen (concatStrings (blocks.map extractTextFromContentBlock))
  · simp only [requestParts, List.length_append, List.length_map]
    split_ifs <;> simp_all
    omega

/-- Whether a JSON value is the literal `null`. -/
def Json.isNull : Json → Bool
  | .null => true
  | _ => false

/-- The specification's condition on a raw message content: present and
not null. -/
def contentPresentAndNotNull : Option Json → Bool
  | none => false
  | some j => !j.isNull

/-- The per-message check as the specification words it: for each message
at index `i` in order, first the role must be exactly `user` or
`assistant`, then the content must be present and not null; validation
stops at the first offending message. -/
def specFirstMessageError : Nat → List RawMessage → Option String
  | _, [] => none
  | i, msg :: rest =>
    if msg.role = some "user" ∨ msg.role = some "assistant" then
      if contentPresentAndNotNull msg.content then
        specFirstMessageError (i + 1) rest
      else
        some ("messages." ++ toString i ++ ".content: Field required")
    else
      some ("messages." ++ toString i ++ ".role: Invalid role \""
        ++ renderRole msg.role ++ "\"")

/-- Validation as the specification words it: (1) model present and
truthy, (2) messages present and a sequence, (3) the per-message checks in
order, stopping at the first failure. -/
def validateStructuredSpec (body : RawBody) : Option String :=
  if body.model = none ∨ body.model = some "" then
    some "model: Field required"
  else
    match body.messages with
    | .arr messages => specFirstMessageError 0 messages
    | _ => some "messages: Field required"

theorem roleValid_iff (role : Option String) :
    roleValid role = true
      ↔ (role = some "user" ∨ role = some "assistant") := by
  cases role with
  | none => simp [roleValid]
  | some s => simp [roleValid]

theorem validateMessagesFrom_eq_spec (messages : List RawMessage)
    (i : Nat) :
    validateMessagesFrom i messages = specFirstMessageError i messages := by
  induction messages generalizing i with
  | nil => rfl
  | cons msg rest ih =>
    by_cases h : msg.role = some "user" ∨ msg.role = some "assistant"
    · rw [validateMessagesFrom, specFirstMessageError,
        if_pos ((roleValid_iff msg.role).mpr h), if_pos h]
      cases hc : msg.content with
      | none => simp [contentPresentAndNotNull]
      | some j =>
          cases j <;>
            simp [contentPresentAndNotNull, Json.isNull, ih]
    · rw [validateMessagesFrom, specFirstMessageError, if_neg h, if_neg]
      simp only [roleValid_iff]
      exact h

/-- Claim C3: the structured validator performs exactly the checks of the
specification, in order, stopping at the first failure — model, then
messages, then each message's role and content in index order — and every
failure is reported as HTTP 400 with type `invalid_request_error` and the
stated message. -/
theorem C3_structured_validation (body : RawBody) :
    validateStructured body = validateStructuredSpec body
      ∧ structuredValidationError body
        = (validateStructured body).map
          (fun m => ⟨400, "invalid_request_error", m⟩) := by
  refine ⟨?_, rfl⟩
  unfold validateStructured validateStructuredSpec
  by_cases h : body.model = none ∨ body.model = some ""
  · have hm : modelTruthy body.model = false := by
      rcases h with h | h <;> simp [h, modelTruthy]
    rw [if_pos h]
    simp [hm]
  · have hm : modelTruthy body.model = true := by
      push_neg at h
      cases hb : body.model with
      | none => exact absurd hb h.1
      | some s =>
          have : s ≠ "" := by
            intro hs
            exact h.2 (by rw [hb, hs])
          simp [modelTruthy, this]
    rw [if_neg h]
    simp only [hm, if_true]
    cases body.messages <;>
      simp [validateMessagesFrom_eq_spec]

/-- Claim C5 counterexample: a body whose `text` field is the empty
string has a `text` field
that is present and of string type, so the claim predicts acceptance with
`token_count = countTokens("")`; the code rejects it, because the guard
`!text` is true for the empty string. -/
theorem C5_counterexample :
    textEndpoint (fun _ => 0) (.str "") ≠ TextResponse.ok 0 := by
  decide

/-- Claim C5 as amended: the text endpoint accepts a request exactly when
the `text` field is present, of string type and non-empty, answering 200
with `token_count = countTokens(text)`; an absent field, a non-string
field and the empty string are all rejected with HTTP 400, type
`invalid_request_error`, message
`text: Field required and must be a string`. -/
theorem C5_text_endpoint (ct : String → Nat) :
    textEndpoint ct .absent
        = .err ⟨400, "invalid_request_error",
          "text: Field required and must be a string"⟩
  ∧ textEndpoint ct .nonString
        = .err ⟨400, "invalid_request_error",
          "text: Field required and must be a string"⟩
  ∧ (∀ s, textEndpoint ct (.str s)
        = if s = "" then
            .err ⟨400, "invalid_request_error",
              "text: Field required and must be a string"⟩
          else
            .ok (ct s)) :=
  ⟨rfl, rfl, fun _ => rfl⟩

/-- Claim C7 counterexample: a tool whose description is present but is
the empty string.  The claim predicts `tool:t` followed by `:` followed by
the empty description, i.e. `tool:t:`; the code skips the description
because the guard `if (tool.description)` is false for the empty string,
producing `tool:t`. -/
theorem C7_counterexample :
    extractTextFromTools (some [⟨"t", some "", none⟩]) ≠ "tool:t:"
      ∧ extractTextFromTools (some [⟨"t", some "", none⟩]) = "tool:t" := by
  constructor <;> decide

/-- Claim C7 as amended: the tools field contributes nothing when absent
or the empty sequence; otherwise the per-tool strings, concatenated with
no separator, where each tool yields `tool:<name>`, followed by
`:<description>` if the description is present and non-empty, followed by
the compact JSON serialization of `input_schema` if it is present. -/
theorem C7_tools_contribution :
    extractTextFromTools none = ""
  ∧ extractTextFromTools (some []) = ""
  ∧ (∀ tools, extractTextFromTools (some tools)
      = if tools.length = 0 then "" else concatStrings (tools.map toolText))
  ∧ (∀ name, toolText ⟨name, none, none⟩ = "tool:" ++ name)
  ∧ (∀ name schema, toolText ⟨name, none, some schema⟩
      = "tool:" ++ name ++ schema.stringify)
  ∧ (∀ name d, toolText ⟨name, some d, none⟩
      = if d = "" then "tool:" ++ name else "tool:" ++ name ++ ":" ++ d)
  ∧ (∀ name d schema, toolText ⟨name, some d, some schema⟩
      = (if d = "" then "tool:" ++ name else "tool:" ++ name ++ ":" ++ d)
        ++ schema.stringify) :=
  ⟨rfl, rfl, fun _ => rfl, fun _ => rfl, fun _ _ => rfl, fun _ _ => rfl,
    fun _ _ _ => rfl⟩

end TokenizerModel
